import Mathlib

/-!
Shallow embedding of torchchat's model-construction and checkpoint-loading
layer (src/torchchat/cli/builder.py) and proofs about the claims of the
specification.

Modelling conventions:
- Filesystem paths are plain strings; a filesystem is a total map from a
  path to what exists there (file, directory, or nothing).
- Python `Optional` fields become `Option`; Python truthiness of an
  optional string (None and the empty string are falsy) is the `truthy`
  function.
- Tensors are rank-2 integer matrices (`List (List Int)`); `torch.cat`
  along dimension 0 appends the row lists, along dimension 1 appends the
  rows pointwise.  `torch.allclose` is an external numeric primitive and
  is passed in as an opaque boolean comparison.
- External collaborators (torch.load, the model registry, tokenizer
  constructors, compiled-artifact loaders, ...) are fields of explicit
  environment records; a fallible external call is represented by the
  data it returns on success, or a success flag.
- Python functions that mutate the shared `BuilderArgs` object are
  state-passing: they return the updated record next to their result,
  and an exception outcome still returns the (possibly mutated) state,
  exactly as the Python object survives a raised exception.
-/

namespace TorchchatBuilder

/-- What a filesystem path resolves to. -/
inductive FileKind where
  | file
  | dir
  | absent
deriving DecidableEq, Repr

/-- Python truthiness of an optional string: `None` and `""` are falsy. -/
def truthy : Option String → Bool
  | none => false
  | some s => s != ""

/-- `p and p.is_file()` for an optional path `p`. -/
def optIsFile (fs : String → FileKind) : Option String → Bool
  | none => false
  | some s => (s != "") && (fs s == FileKind.file)

/-- `p and p.is_dir()` for an optional path `p`. -/
def optIsDir (fs : String → FileKind) : Option String → Bool
  | none => false
  | some s => (s != "") && (fs s == FileKind.dir)

/-- Python `str()` of an optional path; `str(None) = "None"`. -/
def strOfOpt : Option String → String
  | none => "None"
  | some s => s

/-- Numeric precision (torch dtype), abstracted. -/
inductive DType where
  | float32
  | float16
  | bfloat16
  | other (name : String)
deriving DecidableEq, Repr

/-- The transient GGUF load flags: the `gguf_kwargs` dict, as an
association list from flag name to boolean value. -/
abbrev GgufKwargs := List (String × Bool)

/-- Errors raised by the builder layer.  The Python code raises
`RuntimeError` (configuration problems, artifact-load failures) and
`AssertionError`; the spec groups them as ConfigurationError and friends. -/
inductive Err where
  | noValidSource
  | conflictingExports
  | assertionError
  | loadFailure
  | aotiLoadFailed (path : String)
  | etLoadFailed (path : String)
  | noTokenizerFound (path : String)
  | tokenizerMismatch
deriving DecidableEq, Repr

/-- `BuilderArgs` (the spec's BuildConfiguration): the resolved, validated
description of how to construct a model instance.  Field defaults mirror
the Python dataclass defaults. -/
structure BuilderArgs where
  checkpoint_path : Option String := none
  checkpoint_dir : Option String := none
  dcp_dir : Option String := none
  params_path : Option String := none
  params_table : Option String := none
  gguf_path : Option String := none
  gguf_kwargs : Option GgufKwargs := none
  dso_path : Option String := none
  aoti_package_path : Option String := none
  pte_path : Option String := none
  device : Option String := none
  precision : DType := DType.float32
  setup_caches : Bool := false
  distributed : Bool := false
  pp : Int := 1
  tp : Int := 1
  chpt_from : String := "hf"
  is_chat_model : Bool := false
  prefill_possible : Bool := false
  dynamic_shapes : Bool := false
  max_seq_length : Option Nat := none
deriving DecidableEq, Repr

/-- The existence check of `BuilderArgs.__post_init__`: at least one of the
six sources must point to an existing filesystem entity. -/
def hasValidSource (fs : String → FileKind) (b : BuilderArgs) : Bool :=
  optIsFile fs b.checkpoint_path
    || optIsDir fs b.checkpoint_dir
    || optIsFile fs b.gguf_path
    || optIsFile fs b.dso_path
    || optIsFile fs b.aoti_package_path
    || optIsFile fs b.pte_path

/-- The first statement of `BuilderArgs.__post_init__`: default the
device to cuda-if-available when it was not given. -/
def deviceDefaulted (cudaAvailable : Bool) (b : BuilderArgs) : BuilderArgs :=
  if b.device.isNone then
    { b with device := some (if cudaAvailable then "cuda" else "cpu") }
  else b

/-- The validation part of `BuilderArgs.__post_init__` (after the device
default): source existence, export conflict, and the
`prefill_possible` derivation. -/
def postInitChecked (fs : String → FileKind) (b : BuilderArgs) : Except Err BuilderArgs :=
  if !(hasValidSource fs b) then
    Except.error Err.noValidSource
  else if truthy b.aoti_package_path && truthy b.pte_path then
    Except.error Err.conflictingExports
  else if truthy b.dso_path || truthy b.pte_path || truthy b.aoti_package_path then
    Except.ok b
  else
    Except.ok { b with prefill_possible := true }

/-- `BuilderArgs.__post_init__`: defaults the device, validates the source
combination, and derives `prefill_possible`.  A raised exception aborts
construction, so the error case carries no state. -/
def postInit (fs : String → FileKind) (cudaAvailable : Bool) (b : BuilderArgs) :
    Except Err BuilderArgs :=
  postInitChecked fs (deviceDefaulted cudaAvailable b)

/-- Whether an `Except` is a success, without touching the payload. -/
def exOk {α : Type} : Except Err α → Bool
  | Except.ok _ => true
  | Except.error _ => false

/-! ## Computable string primitives

Python string operations, implemented by structural recursion over the
character list so that concrete instances reduce inside the kernel. -/

/-- `s.endswith(suf)`. -/
def strEndsWith (s suf : String) : Bool :=
  List.isSuffixOf suf.toList s.toList

/-- `s.startswith(pre)`. -/
def strStartsWith (s pre : String) : Bool :=
  List.isPrefixOf pre.toList s.toList

/-- `s.lower()` (ASCII, as the inspected names are). -/
def lowerStr (s : String) : String :=
  String.mk (s.toList.map Char.toLower)

/-- Occurrence of `sub` somewhere in `l` (Python `sub in s`). -/
def subOccurs (sub : List Char) : List Char → Bool
  | [] => sub.isEmpty
  | c :: tl => List.isPrefixOf sub (c :: tl) || subOccurs sub tl

/-- `sub in s`. -/
def strContains (s sub : String) : Bool :=
  subOccurs sub.toList s.toList

/-- `os.path.basename`: everything after the last slash. -/
def pyBasename (s : String) : String :=
  String.mk ((s.toList.reverse.takeWhile fun c => c != '/').reverse)

/-- `os.path.dirname`: everything before the last slash, with trailing
slashes stripped unless the head is all slashes. -/
def pyDirname (s : String) : String :=
  let cs := s.toList
  let base := (cs.reverse.takeWhile fun c => c != '/').reverse
  let head := cs.take (cs.length - base.length)
  if head.length != 0 && !(head.all fun c => c = '/') then
    String.mk ((head.reverse.dropWhile fun c => c = '/').reverse)
  else String.mk head

/-- Strip a single trailing slash (`if path.endswith("/"): path = path[:-1]`). -/
def stripOneTrailingSlash (s : String) : String :=
  if strEndsWith s "/" then String.mk s.toList.dropLast else s

/-! ## Checkpoint merging (`_load_checkpoint`) -/

/-- A tensor, modelled as a rank-2 integer matrix (list of rows). -/
abbrev Tensor := List (List Int)

/-- A checkpoint: an insertion-ordered mapping from parameter key to
tensor (Python dict), as an association list. -/
abbrev Checkpoint := List (String × Tensor)

/-- Dict lookup in a checkpoint (first matching key wins). -/
def lookupCP : Checkpoint → String → Option Tensor
  | [], _ => none
  | (k, v) :: rest, key => if k = key then some v else lookupCP rest key

/-- `torch.cat((a, b, c, d), dim=0)` on rank-2 tensors: append the row
lists. -/
def catDim0 (a b c d : Tensor) : Tensor :=
  a ++ b ++ c ++ d

/-- Pointwise row concatenation of two rank-2 tensors (the tensors are
expected to have the same number of rows, as `torch.cat` requires). -/
def catRows (a b : Tensor) : Tensor :=
  List.zipWith (fun r s => r ++ s) a b

/-- `torch.cat((a, b, c, d), dim=1)` on rank-2 tensors. -/
def catDim1 (a b c d : Tensor) : Tensor :=
  catRows (catRows (catRows a b) c) d

/-- The 4-shard merge loop of `_load_checkpoint` (builder.py lines
407-416).  `ac` is `torch.allclose` (an external numeric comparison),
`cps i` is the mapping loaded from shard `i`, and `keys0` is the key
order of shard 0 (`cps[0].keys()`). -/
def mergeShards (ac : Tensor → Tensor → Bool) (cps : Fin 4 → String → Tensor)
    (keys0 : List String) : Checkpoint :=
  keys0.map fun key =>
    (key,
      if !(ac (cps 0 key) (cps 1 key)) then
        if strEndsWith key "wo.weight" || strEndsWith key "w2.weight" then
          catDim1 (cps 0 key) (cps 1 key) (cps 2 key) (cps 3 key)
        else
          catDim0 (cps 0 key) (cps 1 key) (cps 2 key) (cps 3 key)
      else
        cps 0 key)

/-- `os.path.join(a, b)` for a non-absolute second component. -/
def pathJoin (a b : String) : String :=
  if a = "" then b
  else if strEndsWith a "/" then a ++ b
  else a ++ "/" ++ b

/-- The fixed rank-indexed shard file name `consolidated.{i}.pth`. -/
def shardName (i : Nat) : String :=
  "consolidated." ++ toString i ++ ".pth"

/-- Environment for checkpoint loading: the externally deserialized
content of each file (`torch.load`, as a key list plus a value map), the
`torch.allclose` comparison, and torchtune's `meta_to_tune` key
conversion. -/
structure LoadEnv where
  torchLoadKeys : String → List String
  torchLoadVal : String → String → Tensor
  allclose : Tensor → Tensor → Bool
  metaToTune : Checkpoint → Checkpoint

/-- The dict returned by `torch.load(path)`. -/
def torchLoadDict (env : LoadEnv) (p : String) : Checkpoint :=
  (env.torchLoadKeys p).map fun k => (k, env.torchLoadVal p k)

/-- The guard of the first branch of `_load_checkpoint`:
`builder_args.params_table and builder_args.params_table.endswith("Tune")`. -/
def paramsTableEndsTune (b : BuilderArgs) : Bool :=
  match b.params_table with
  | none => false
  | some t => (t != "") && strEndsWith t "Tune"

/-- `_load_checkpoint` (builder.py lines 386-424), state-passing: the
directory branch mutates the shared `BuilderArgs` by clearing
`checkpoint_path`.  Returns the updated args next to the loaded
checkpoint. -/
def loadCheckpoint (env : LoadEnv) (b : BuilderArgs) : BuilderArgs × Checkpoint :=
  if paramsTableEndsTune b then
    (b, env.metaToTune (torchLoadDict env (strOfOpt b.checkpoint_path)))
  else if b.checkpoint_dir.isSome then
    let b := { b with checkpoint_path := none }
    let dir := b.checkpoint_dir.getD ""
    let shardPath := fun (i : Nat) => pathJoin dir (shardName i)
    (b, mergeShards env.allclose (fun i k => env.torchLoadVal (shardPath i.val) k)
      (env.torchLoadKeys (shardPath 0)))
  else
    (b, torchLoadDict env (strOfOpt b.checkpoint_path))

/-! ## Tokenizer resolution (`TokenizerArgs`) -/

/-- The stored tokenizer handle, tagged by which implementation built it.
The payload is an opaque identifier for the loaded object. -/
inductive TokHandle where
  | tiktoken (h : Nat)
  | sentencepiece (h : Nat)
  | hf (h : Nat)
deriving DecidableEq, Repr

/-- The three external tokenizer constructors, in the order
`TokenizerArgs.__post_init__` tries them.  `none` means the constructor
(or its import) raised; the bare `except` of the source catches any
failure. -/
structure TokEnv where
  tiktokenCtor : String → Option Nat
  sentencepieceCtor : String → Option Nat
  hfCtor : String → Option Nat

/-- `TokenizerArgs`: resolved tokenizer source with its format tags.
Defaults mirror the Python dataclass defaults. -/
structure TokenizerArgs where
  tokenizer_path : Option String := none
  is_sentencepiece : Bool := false
  is_tiktoken : Bool := false
  is_hf_tokenizer : Bool := false
  t : Option TokHandle := none
deriving DecidableEq, Repr

/-- `TokenizerArgs.__post_init__` (builder.py lines 221-259): try the
three constructors in fixed priority order, keep the first success, and
fall through to all-tags-false when every attempt fails.  The resolver
itself never raises. -/
def tokPostInit (env : TokEnv) (a : TokenizerArgs) : TokenizerArgs :=
  match env.tiktokenCtor (strOfOpt a.tokenizer_path) with
  | some h =>
    { a with t := some (TokHandle.tiktoken h), is_tiktoken := true,
             is_sentencepiece := false, is_hf_tokenizer := false }
  | none =>
    match env.sentencepieceCtor (strOfOpt a.tokenizer_path) with
    | some h =>
      { a with t := some (TokHandle.sentencepiece h), is_tiktoken := false,
               is_sentencepiece := true, is_hf_tokenizer := false }
    | none =>
      match env.hfCtor (strOfOpt a.tokenizer_path) with
      | some h =>
        { a with t := some (TokHandle.hf h), is_tiktoken := false,
                 is_sentencepiece := false, is_hf_tokenizer := true }
      | none =>
        { a with is_tiktoken := false, is_sentencepiece := false,
                 is_hf_tokenizer := false, t := none }

/-- The subset of a model's configuration that `validate_model` consults:
which tokenizer format the model declares it expects. -/
structure ModelCfg where
  use_tiktoken : Bool
  use_hf_tokenizer : Bool
deriving DecidableEq, Repr

/-- Number of flags set among a list of booleans (`sum([...])`). -/
def boolSum (l : List Bool) : Nat :=
  (l.map fun b => if b then 1 else 0).sum

/-- `TokenizerArgs.validate_model` (builder.py lines 261-292): a no-op
without a model; with a model, requires exactly one format tag and
agreement with the model's declared format (sentencepiece when the model
declares neither tiktoken nor hf-style). -/
def validateModel (a : TokenizerArgs) (model : Option ModelCfg) : Except Err Unit :=
  match model with
  | none => Except.ok ()
  | some m =>
    if boolSum [a.is_tiktoken, a.is_hf_tokenizer, a.is_sentencepiece] != 1 then
      Except.error (Err.noTokenizerFound (strOfOpt a.tokenizer_path))
    else
      let use_tiktoken := m.use_tiktoken
      let use_hf_tokenizer := m.use_hf_tokenizer
      let use_sentencepiece := !(use_tiktoken || use_hf_tokenizer)
      if (a.is_tiktoken && !use_tiktoken)
          || (a.is_hf_tokenizer && !use_hf_tokenizer)
          || (a.is_sentencepiece && !use_sentencepiece) then
        Except.error Err.tokenizerMismatch
      else
        Except.ok ()

/-! ## Model loading and initialization -/

/-- The produced model, abstracted to the construction route taken. -/
inductive Model where
  | fromGguf (path : String) (kwargs : GgufKwargs)
  | fromCheckpoint (cp : Checkpoint)
  | patchedForward (base : Model) (artifact : String)
  | pteWrapper (path : String)
deriving DecidableEq, Repr

/-- The dict `_set_gguf_kwargs` installs: `{"load_as_quantized": False}`
for ET, else `{}`. -/
def ggufKwValue (is_et : Bool) : GgufKwargs :=
  if is_et then [("load_as_quantized", false)] else []

/-- `_set_gguf_kwargs` (builder.py lines 349-363): asserts the flags
field is empty, then sets it unless no GGUF path is configured.  The
`context` argument is always one of the asserted literals at the call
sites and is omitted. -/
def setGgufKwargs (b : BuilderArgs) (is_et : Bool) : BuilderArgs × Except Err Unit :=
  if b.gguf_kwargs.isSome then (b, Except.error Err.assertionError)
  else if b.gguf_path.isNone then (b, Except.ok ())
  else ({ b with gguf_kwargs := some (ggufKwValue is_et) }, Except.ok ())

/-- `_unset_gguf_kwargs` (builder.py lines 362-363).  Defined in the
module but never invoked by `_initialize_model`. -/
def unsetGgufKwargs (b : BuilderArgs) : BuilderArgs :=
  { b with gguf_kwargs := none }

/-- Environment for model initialization: the checkpoint-loading
environment plus the outcomes of the external calls (device
classification, GGUF/meta-device/state-dict loading, AOTI and ET
artifact loading).  `packageMetadata` is the `AOTI_DEVICE_KEY` entry of
the compiled package's metadata on success, `none` when
`load_package` or the metadata lookup fails. -/
structure InitEnv where
  lenv : LoadEnv
  isCudaOrCpu : String → Bool
  isCpu : String → Bool
  fromGgufOk : Bool
  metaInitOk : Bool
  installOk : Bool
  aotLoadOk : Bool
  packageMetadata : Option String
  paramsConfigOk : Bool
  pteOk : Bool

/-- `_load_model_gguf` (builder.py lines 376-383). -/
def loadModelGguf (env : InitEnv) (b : BuilderArgs) : BuilderArgs × Except Err Model :=
  if !(truthy b.gguf_path) then (b, Except.error Err.assertionError)
  else if env.fromGgufOk then
    (b, Except.ok (Model.fromGguf (b.gguf_path.getD "") (b.gguf_kwargs.getD [])))
  else (b, Except.error Err.loadFailure)

/-- `_load_model_default` (builder.py lines 427-464): meta-device
skeleton allocation, then `_load_checkpoint` (which may mutate the
args), then weight installation.  The model-object surgery (Flamingo
rotary-buffer reinit, key prefixing, `load_state_dict`) is external to
the args state and is abstracted into `installOk`. -/
def loadModelDefault (env : InitEnv) (b : BuilderArgs) : BuilderArgs × Except Err Model :=
  if truthy b.gguf_path then (b, Except.error Err.assertionError)
  else if !env.metaInitOk then (b, Except.error Err.loadFailure)
  else if env.installOk then
    ((loadCheckpoint env.lenv b).1,
     Except.ok (Model.fromCheckpoint (loadCheckpoint env.lenv b).2))
  else ((loadCheckpoint env.lenv b).1, Except.error Err.loadFailure)

/-- `_load_model` (builder.py lines 529-540).  The final
`.to(device, dtype).eval()` moves the model, not the args. -/
def loadModel (env : InitEnv) (b : BuilderArgs) : BuilderArgs × Except Err Model :=
  if truthy b.gguf_path then loadModelGguf env b
  else loadModelDefault env b

/-- The device string the branch guards inspect (always set after
`postInit`; `str(None)` otherwise). -/
def deviceStr (b : BuilderArgs) : String :=
  strOfOpt b.device

/-- The GGUF-kwargs preamble of `_initialize_model` (builder.py lines
551-563): when a GGUF source is combined with a compiled artifact,
assert not all three artifact paths are set, assert the kwargs field is
empty, and call `_set_gguf_kwargs` (ET mode iff a PTE path is set). -/
def ggufPreamble (b : BuilderArgs) : BuilderArgs × Except Err Unit :=
  if truthy b.gguf_path
      && (truthy b.dso_path || truthy b.pte_path || truthy b.aoti_package_path) then
    if b.dso_path.isSome && b.aoti_package_path.isSome && b.pte_path.isSome then
      (b, Except.error Err.assertionError)
    else if b.gguf_kwargs.isSome then
      (b, Except.error Err.assertionError)
    else
      setGgufKwargs b b.pte_path.isSome
  else (b, Except.ok ())

/-- The CPU downgrade of the DSO and AOTI-package branches: rewrite the
device to "cpu" when it is neither cuda nor cpu. -/
def downgradeUnlessCudaOrCpu (env : InitEnv) (b : BuilderArgs) : BuilderArgs :=
  if env.isCudaOrCpu (deviceStr b) then b else { b with device := some "cpu" }

/-- The CPU downgrade of the PTE branch: rewrite the device to "cpu"
when it is not cpu. -/
def downgradeUnlessCpu (env : InitEnv) (b : BuilderArgs) : BuilderArgs :=
  if env.isCpu (deviceStr b) then b else { b with device := some "cpu" }

/-- The DSO branch of `_initialize_model` (builder.py lines 565-591):
downgrade the device, load the base model, then patch its forward with
the AOT-compiled callable (wrapping any failure). -/
def dsoBranch (env : InitEnv) (b1 : BuilderArgs) : BuilderArgs × Except Err Model :=
  match loadModel env (downgradeUnlessCudaOrCpu env b1) with
  | (b3, Except.error e) => (b3, Except.error e)
  | (b3, Except.ok m) =>
    if env.aotLoadOk then
      (b3, Except.ok (Model.patchedForward m (b3.dso_path.getD "")))
    else (b3, Except.error (Err.aotiLoadFailed (b3.dso_path.getD "")))

/-- The AOTI-package branch of `_initialize_model` (builder.py lines
593-626): downgrade the device, load the base model, patch its forward
with the loaded package, and override the device from the package's
`AOTI_DEVICE_KEY` metadata. -/
def aotiBranch (env : InitEnv) (b1 : BuilderArgs) : BuilderArgs × Except Err Model :=
  match loadModel env (downgradeUnlessCudaOrCpu env b1) with
  | (b3, Except.error e) => (b3, Except.error e)
  | (b3, Except.ok m) =>
    match env.packageMetadata with
    | some deviceKey =>
      ({ b3 with device := some deviceKey },
       Except.ok (Model.patchedForward m (b3.aoti_package_path.getD "")))
    | none => (b3, Except.error (Err.aotiLoadFailed (b3.aoti_package_path.getD "")))

/-- The config-resolution step of the PTE branch (builder.py lines
635-645): from explicit params when given, else by loading the full
model once. -/
def pteConfigStep (env : InitEnv) (b2 : BuilderArgs) : BuilderArgs × Except Err Unit :=
  if truthy b2.params_path then
    if env.paramsConfigOk then (b2, Except.ok ())
    else (b2, Except.error Err.loadFailure)
  else
    match loadModel env b2 with
    | (b3, Except.ok _) => (b3, Except.ok ())
    | (b3, Except.error e) => (b3, Except.error e)

/-- The PTE branch of `_initialize_model` (builder.py lines 628-652). -/
def pteBranch (env : InitEnv) (b1 : BuilderArgs) : BuilderArgs × Except Err Model :=
  match pteConfigStep env (downgradeUnlessCpu env b1) with
  | (b3, Except.error e) => (b3, Except.error e)
  | (b3, Except.ok ()) =>
    if env.pteOk then (b3, Except.ok (Model.pteWrapper (b3.pte_path.getD "")))
    else (b3, Except.error (Err.etLoadFailed (b3.pte_path.getD "")))

/-- `_initialize_model` (builder.py lines 543-681), state-passing over
the shared `BuilderArgs`: the GGUF-kwargs preamble, then the four
mutually exclusive branches (DSO, AOTI package, PTE, default).
Quantization, cache setup, and the final dtype cast are external
model-object transforms and leave the args unchanged. -/
def initializeModel (env : InitEnv) (b : BuilderArgs) : BuilderArgs × Except Err Model :=
  match ggufPreamble b with
  | (b1, Except.error e) => (b1, Except.error e)
  | (b1, Except.ok ()) =>
    if truthy b1.dso_path then dsoBranch env b1
    else if truthy b1.aoti_package_path then aotiBranch env b1
    else if truthy b1.pte_path then pteBranch env b1
    else loadModel env b1

/-! ## Argument resolution (`BuilderArgs.from_args`) -/

/-- One iteration of the chat-name heuristic of `BuilderArgs.from_args`
(builder.py lines 146-155): strip one trailing slash, replace an
existing *file* path by its parent directory, then look for "chat" or
"instruct" in the lowercased basename. -/
def chatPathIndicates (fs : String → FileKind) (p : String) : Bool :=
  let p := stripOneTrailingSlash p
  let p := if fs p == FileKind.file then pyDirname p else p
  let path_basename := lowerStr (pyBasename p)
  strContains path_basename "chat" || strContains path_basename "instruct"

/-- The heuristic applied to an optional path (the loop skips `None`). -/
def chatOptIndicates (fs : String → FileKind) : Option String → Bool
  | none => false
  | some p => chatPathIndicates fs p

/-- The record the external model registry (`resolve_model_config`)
returns for a named well-known model. -/
structure ModelConfig where
  name : String
  checkpoint_file : String
  tokenizer_file : String
  transformer_params_key : Option String
deriving DecidableEq, Repr

/-- The argparse namespace fields `from_args` consumes.  Fields read via
`getattr(args, ..., default)` are modelled as always present with that
default. -/
structure Args where
  checkpoint_dir : Option String := none
  dcp_dir : Option String := none
  checkpoint_path : Option String := none
  params_path : Option String := none
  params_table : Option String := none
  model : Option String := none
  model_directory : String := ""
  gguf_path : Option String := none
  dso_path : Option String := none
  pte_path : Option String := none
  aoti_package_path : Option String := none
  is_chat_model : Bool := false
  output_pte_path : Option String := none
  output_aoti_package_path : Option String := none
  output_dso_path : Option String := none
  dtype : String := "fast"
  device : Option String := none
  distributed : Bool := false
  pp : Int := 1
  tp : Int := 1
  chpt_from : String := "hf"
  dynamic_shapes : Bool := false
  max_seq_length : Option Nat := none
deriving DecidableEq, Repr

/-- Environment for argument resolution: the external model registry,
the external dtype resolver `name_to_dtype`, CUDA availability, and the
filesystem. -/
structure ResolveEnv where
  resolveModelConfig : String → ModelConfig
  nameToDtype : String → Option String → DType
  cudaAvailable : Bool
  fs : String → FileKind

/-- The checkpoint path after the named-model override of `from_args`
(builder.py lines 114-123). -/
def resolvedCheckpointPath (env : ResolveEnv) (args : Args) : Option String :=
  if truthy args.model then
    let mc := env.resolveModelConfig (args.model.getD "")
    some (pathJoin (pathJoin args.model_directory mc.name) mc.checkpoint_file)
  else args.checkpoint_path

/-- The params-table key after the named-model override (builder.py
lines 124-128): `transformer_params_key or name.split("/")[-1]`. -/
def resolvedParamsTable (env : ResolveEnv) (args : Args) : Option String :=
  if truthy args.model then
    let mc := env.resolveModelConfig (args.model.getD "")
    some (match mc.transformer_params_key with
      | some k => if k != "" then k else pyBasename mc.name
      | none => pyBasename mc.name)
  else args.params_table

/-- The candidate source paths inspected by the chat-name loop, in
source order. -/
def chatCandidates (env : ResolveEnv) (args : Args) : List (Option String) :=
  [resolvedCheckpointPath env args, args.checkpoint_dir, args.dso_path,
   args.pte_path, args.aoti_package_path, args.gguf_path]

/-- The resolved `is_chat_model` flag (builder.py lines 134-155): the
explicit flag wins, otherwise the heuristic over the candidate paths. -/
def computeIsChatModel (env : ResolveEnv) (args : Args) : Bool :=
  args.is_chat_model || (chatCandidates env args).any (chatOptIndicates env.fs)

/-- The resolved precision (builder.py lines 160-169): a hardware
override when exporting to PTE with a "fast" alias, else the external
`name_to_dtype`. -/
def resolvedDtype (env : ResolveEnv) (args : Args) : DType :=
  if truthy args.output_pte_path && strStartsWith args.dtype "fast" then
    if args.dtype = "fast" then DType.float32 else DType.float16
  else env.nameToDtype args.dtype args.device

/-- `BuilderArgs.from_args` (builder.py lines 105-198): resolve the
named-model override, the chat heuristic, the precision, and the cache
flag, then construct the dataclass (running `__post_init__`). -/
def fromArgs (env : ResolveEnv) (args : Args) : Except Err BuilderArgs :=
  postInit env.fs env.cudaAvailable
    { checkpoint_dir := args.checkpoint_dir
      checkpoint_path := resolvedCheckpointPath env args
      dcp_dir := args.dcp_dir
      params_path := args.params_path
      params_table := resolvedParamsTable env args
      gguf_path := args.gguf_path
      gguf_kwargs := none
      dso_path := args.dso_path
      aoti_package_path := args.aoti_package_path
      pte_path := args.pte_path
      device := args.device
      precision := resolvedDtype env args
      setup_caches := truthy args.output_dso_path || truthy args.output_pte_path
        || truthy args.output_aoti_package_path
      distributed := args.distributed
      pp := args.pp
      tp := args.tp
      chpt_from := args.chpt_from
      is_chat_model := computeIsChatModel env args
      prefill_possible := false
      dynamic_shapes := args.dynamic_shapes
      max_seq_length := args.max_seq_length }

/-! ## Fixtures and projection helpers -/

/-- Project the `prefill_possible` flag out of a construction result. -/
def prefillOfResult : Except Err BuilderArgs → Option Bool
  | Except.ok b => some b.prefill_possible
  | Except.error _ => none

/-- Project the `is_chat_model` flag out of a construction result. -/
def chatFlagOfResult : Except Err BuilderArgs → Option Bool
  | Except.ok b => some b.is_chat_model
  | Except.error _ => none

/-- Filesystem where a checkpoint file and a GGUF file both exist. -/
def fsC2 : String → FileKind := fun p =>
  if p = "model.pth" || p = "weights.gguf" then FileKind.file else FileKind.absent

/-- Builder args pointing at both existing sources. -/
def bC2 : BuilderArgs :=
  { checkpoint_path := some "model.pth", gguf_path := some "weights.gguf" }

/-- Empty filesystem. -/
def fsEmpty : String → FileKind := fun _ => FileKind.absent

/-- Builder args with no sources at all. -/
def bC2w : BuilderArgs := {}

/-- Builder args with both a compiled package and a PTE path. -/
def bC3 : BuilderArgs :=
  { aoti_package_path := some "m.pt2", pte_path := some "m.pte" }

/-- Filesystem where only the checkpoint file exists. -/
def fsC8 : String → FileKind := fun p =>
  if p = "model.pth" then FileKind.file else FileKind.absent

/-- Builder args with a single existing checkpoint source. -/
def bC8 : BuilderArgs := { checkpoint_path := some "model.pth" }

/-- The record `postInit` produces from `bC8` over `fsC8` without CUDA. -/
def bC8out : BuilderArgs :=
  { bC8 with device := some "cpu", prefill_possible := true }

/-! ## Claims about `BuilderArgs.__post_init__` -/

theorem hasValidSource_deviceDefaulted (fs : String → FileKind) (cuda : Bool)
    (b : BuilderArgs) :
    hasValidSource fs (deviceDefaulted cuda b) = hasValidSource fs b := by
  unfold deviceDefaulted
  split <;> rfl

theorem deviceDefaulted_dso (cuda : Bool) (b : BuilderArgs) :
    (deviceDefaulted cuda b).dso_path = b.dso_path := by
  unfold deviceDefaulted
  split <;> rfl

theorem deviceDefaulted_pte (cuda : Bool) (b : BuilderArgs) :
    (deviceDefaulted cuda b).pte_path = b.pte_path := by
  unfold deviceDefaulted
  split <;> rfl

theorem deviceDefaulted_aoti (cuda : Bool) (b : BuilderArgs) :
    (deviceDefaulted cuda b).aoti_package_path = b.aoti_package_path := by
  unfold deviceDefaulted
  split <;> rfl

theorem deviceDefaulted_prefill (cuda : Bool) (b : BuilderArgs) :
    (deviceDefaulted cuda b).prefill_possible = b.prefill_possible := by
  unfold deviceDefaulted
  split <;> rfl

/-- Sample `allclose` for witnesses: exact equality (a legal instance of
the floating tolerance). -/
def acW1 : Tensor → Tensor → Bool := fun a b => a == b

/-- Four synthetic shards: the column-parallel key differs per shard
(1x1 blocks), every other key is replicated. -/
def cpsW1 : Fin 4 → String → Tensor := fun i k =>
  if k = "layers.0.feed_forward.w2.weight" then [[(i.val : Int)]] else [[7]]

/-- Key order of shard 0 in the merge witness. -/
def keysW1 : List String :=
  ["layers.0.feed_forward.w2.weight", "tok_embeddings.weight"]

/-- A loading environment whose external calls are all trivial. -/
def lenvTrivial : LoadEnv :=
  { torchLoadKeys := fun _ => [], torchLoadVal := fun _ _ => [],
    allclose := fun _ _ => true, metaToTune := fun c => c }

/-- Builder args with both a single checkpoint file and a checkpoint
directory configured. -/
def bC4 : BuilderArgs :=
  { checkpoint_path := some "consolidated.pth", checkpoint_dir := some "ckpts" }

/-- Builder args with a Tune params-table key and a checkpoint directory
also set. -/
def bW10 : BuilderArgs :=
  { checkpoint_path := some "model.pth", checkpoint_dir := some "ckpts",
    params_table := some "Llama3Tune" }

/-- An initialization environment whose external calls all succeed. -/
def envC5 : InitEnv :=
  { lenv := lenvTrivial, isCudaOrCpu := fun _ => true, isCpu := fun d => d = "cpu",
    fromGgufOk := true, metaInitOk := true, installOk := true, aotLoadOk := true,
    packageMetadata := some "cpu", paramsConfigOk := true, pteOk := true }

/-- Builder args combining a GGUF source with a DSO artifact. -/
def bC5 : BuilderArgs :=
  { gguf_path := some "m.gguf", dso_path := some "m.so", device := some "cpu" }

/-- Builder args combining a GGUF source with a PTE artifact. -/
def bC5w : BuilderArgs :=
  { gguf_path := some "w.gguf", pte_path := some "w.pte", device := some "cpu" }

/-- A tokenizer environment where only the sentencepiece constructor
succeeds. -/
def envTokW : TokEnv :=
  { tiktokenCtor := fun _ => none, sentencepieceCtor := fun _ => some 7,
    hfCtor := fun _ => none }

/-- Tokenizer args pointing at some path. -/
def aTokW : TokenizerArgs := { tokenizer_path := some "tokenizer.model" }

/-- Resolution environment for the chat-heuristic counterexample: the
checkpoint path "m/chat.pth" is an existing file. -/
def envC9 : ResolveEnv :=
  { resolveModelConfig := fun _ =>
      { name := "", checkpoint_file := "", tokenizer_file := "",
        transformer_params_key := none },
    nameToDtype := fun _ _ => DType.float32, cudaAvailable := false,
    fs := fun p => if p = "m/chat.pth" then FileKind.file else FileKind.absent }

/-- Argparse namespace whose checkpoint file is named "chat.pth" inside
a directory not named after chat. -/
def argsC9 : Args :=
  { checkpoint_path := some "m/chat.pth", device := some "cpu", dtype := "float32" }

/-- Resolution environment for the named-model scenario: the registry
maps the model name to a directory whose name contains "instruct", and
the resolved checkpoint file exists. -/
def envW9 : ResolveEnv :=
  { resolveModelConfig := fun _ =>
      { name := "llama3-instruct", checkpoint_file := "model.pth",
        tokenizer_file := "tokenizer.model", transformer_params_key := none },
    nameToDtype := fun _ _ => DType.float32, cudaAvailable := false,
    fs := fun p =>
      if p = "md/llama3-instruct/model.pth" then FileKind.file else FileKind.absent }

/-- Argparse namespace selecting the named well-known model, without the
explicit chat flag. -/
def argsW9 : Args :=
  { model := some "llama3-instruct", model_directory := "md",
    device := some "cpu", dtype := "float32" }

/-- Tokenizer args resolved as tiktoken. -/
def aTokC7 : TokenizerArgs :=
  { tokenizer_path := some "tokenizer.model", is_tiktoken := true }

/-- A model configuration declaring neither tiktoken nor hf-style, hence
implicitly expecting sentencepiece. -/
def mC7 : ModelCfg := { use_tiktoken := false, use_hf_tokenizer := false }

/-! ## Frame machinery for the mutation claims -/

/-- All fields of a `BuilderArgs` record other than `checkpoint_path`,
`device` and `gguf_kwargs`, as one tuple. -/
def frameOf (b : BuilderArgs) :=
  (b.checkpoint_dir, b.dcp_dir, b.params_path, b.params_table, b.gguf_path,
   b.dso_path, b.aoti_package_path, b.pte_path, b.precision, b.setup_caches,
   b.distributed, b.pp, b.tp, b.chpt_from, b.is_chat_model,
   b.prefill_possible, b.dynamic_shapes, b.max_seq_length)

/-- Two records agree on every field other than `checkpoint_path`,
`device` and `gguf_kwargs`. -/
def FrameAgree (b b2 : BuilderArgs) : Prop :=
  frameOf b2 = frameOf b

theorem frameAgree_trans {a b c : BuilderArgs} (h1 : FrameAgree a b)
    (h2 : FrameAgree b c) : FrameAgree a c :=
  h2.trans h1

theorem loadCheckpoint_frame (env : LoadEnv) (b : BuilderArgs) :
    FrameAgree b (loadCheckpoint env b).1 := by
  unfold loadCheckpoint
  split
  · rfl
  · split <;> rfl

theorem loadCheckpoint_kwargs (env : LoadEnv) (b : BuilderArgs) :
    (loadCheckpoint env b).1.gguf_kwargs = b.gguf_kwargs := by
  unfold loadCheckpoint
  split
  · rfl
  · split <;> rfl

theorem loadModel_frame (env : InitEnv) (b : BuilderArgs) :
    FrameAgree b (loadModel env b).1 := by
  unfold loadModel loadModelGguf loadModelDefault
  repeat' split
  all_goals first
    | rfl
    | exact loadCheckpoint_frame env.lenv b

theorem loadModel_kwargs (env : InitEnv) (b : BuilderArgs) :
    (loadModel env b).1.gguf_kwargs = b.gguf_kwargs := by
  unfold loadModel loadModelGguf loadModelDefault
  repeat' split
  all_goals first
    | rfl
    | exact loadCheckpoint_kwargs env.lenv b

theorem downgradeUnlessCudaOrCpu_frame (env : InitEnv) (b : BuilderArgs) :
    FrameAgree b (downgradeUnlessCudaOrCpu env b) := by
  unfold downgradeUnlessCudaOrCpu
  split <;> rfl

theorem downgradeUnlessCudaOrCpu_kwargs (env : InitEnv) (b : BuilderArgs) :
    (downgradeUnlessCudaOrCpu env b).gguf_kwargs = b.gguf_kwargs := by
  unfold downgradeUnlessCudaOrCpu
  split <;> rfl

theorem downgradeUnlessCpu_frame (env : InitEnv) (b : BuilderArgs) :
    FrameAgree b (downgradeUnlessCpu env b) := by
  unfold downgradeUnlessCpu
  split <;> rfl

theorem downgradeUnlessCpu_kwargs (env : InitEnv) (b : BuilderArgs) :
    (downgradeUnlessCpu env b).gguf_kwargs = b.gguf_kwargs := by
  unfold downgradeUnlessCpu
  split <;> rfl

theorem dsoBranch_frame (env : InitEnv) (b1 : BuilderArgs) :
    FrameAgree b1 (dsoBranch env b1).1 := by
  have h1 := downgradeUnlessCudaOrCpu_frame env b1
  have h2 := loadModel_frame env (downgradeUnlessCudaOrCpu env b1)
  unfold dsoBranch
  rcases hLM : loadModel env (downgradeUnlessCudaOrCpu env b1) with ⟨b3, r⟩
  rw [hLM] at h2
  cases r with
  | error e => exact frameAgree_trans h1 h2
  | ok m =>
    cases hA : env.aotLoadOk
    · exact frameAgree_trans h1 h2
    · exact frameAgree_trans h1 h2

theorem dsoBranch_kwargs (env : InitEnv) (b1 : BuilderArgs) :
    (dsoBranch env b1).1.gguf_kwargs = b1.gguf_kwargs := by
  have h1 := downgradeUnlessCudaOrCpu_kwargs env b1
  have h2 := loadModel_kwargs env (downgradeUnlessCudaOrCpu env b1)
  unfold dsoBranch
  rcases hLM : loadModel env (downgradeUnlessCudaOrCpu env b1) with ⟨b3, r⟩
  rw [hLM] at h2
  cases r with
  | error e => exact h2.trans h1
  | ok m =>
    cases hA : env.aotLoadOk
    · exact h2.trans h1
    · exact h2.trans h1

theorem aotiBranch_frame (env : InitEnv) (b1 : BuilderArgs) :
    FrameAgree b1 (aotiBranch env b1).1 := by
  have h1 := downgradeUnlessCudaOrCpu_frame env b1
  have h2 := loadModel_frame env (downgradeUnlessCudaOrCpu env b1)
  unfold aotiBranch
  rcases hLM : loadModel env (downgradeUnlessCudaOrCpu env b1) with ⟨b3, r⟩
  rw [hLM] at h2
  cases r with
  | error e => exact frameAgree_trans h1 h2
  | ok m =>
    cases hP : env.packageMetadata
    · exact frameAgree_trans h1 h2
    · exact frameAgree_trans h1 h2

theorem aotiBranch_kwargs (env : InitEnv) (b1 : BuilderArgs) :
    (aotiBranch env b1).1.gguf_kwargs = b1.gguf_kwargs := by
  have h1 := downgradeUnlessCudaOrCpu_kwargs env b1
  have h2 := loadModel_kwargs env (downgradeUnlessCudaOrCpu env b1)
  unfold aotiBranch
  rcases hLM : loadModel env (downgradeUnlessCudaOrCpu env b1) with ⟨b3, r⟩
  rw [hLM] at h2
  cases r with
  | error e => exact h2.trans h1
  | ok m =>
    cases hP : env.packageMetadata
    · exact h2.trans h1
    · exact h2.trans h1

theorem pteConfigStep_frame (env : InitEnv) (b2 : BuilderArgs) :
    FrameAgree b2 (pteConfigStep env b2).1 := by
  have h2 := loadModel_frame env b2
  unfold pteConfigStep
  split
  · split <;> rfl
  · rcases hLM : loadModel env b2 with ⟨b3, r⟩
    rw [hLM] at h2
    cases r with
    | error e => exact h2
    | ok m => exact h2

theorem pteConfigStep_kwargs (env : InitEnv) (b2 : BuilderArgs) :
    (pteConfigStep env b2).1.gguf_kwargs = b2.gguf_kwargs := by
  have h2 := loadModel_kwargs env b2
  unfold pteConfigStep
  split
  · split <;> rfl
  · rcases hLM : loadModel env b2 with ⟨b3, r⟩
    rw [hLM] at h2
    cases r with
    | error e => exact h2
    | ok m => exact h2

theorem pteBranch_frame (env : InitEnv) (b1 : BuilderArgs) :
    FrameAgree b1 (pteBranch env b1).1 := by
  have h1 := downgradeUnlessCpu_frame env b1
  have h2 := pteConfigStep_frame env (downgradeUnlessCpu env b1)
  unfold pteBranch
  rcases hCS : pteConfigStep env (downgradeUnlessCpu env b1) with ⟨b3, r⟩
  rw [hCS] at h2
  cases r with
  | error e => exact frameAgree_trans h1 h2
  | ok u =>
    cases u
    cases hP : env.pteOk
    · exact frameAgree_trans h1 h2
    · exact frameAgree_trans h1 h2

theorem pteBranch_kwargs (env : InitEnv) (b1 : BuilderArgs) :
    (pteBranch env b1).1.gguf_kwargs = b1.gguf_kwargs := by
  have h1 := downgradeUnlessCpu_kwargs env b1
  have h2 := pteConfigStep_kwargs env (downgradeUnlessCpu env b1)
  unfold pteBranch
  rcases hCS : pteConfigStep env (downgradeUnlessCpu env b1) with ⟨b3, r⟩
  rw [hCS] at h2
  cases r with
  | error e => exact h2.trans h1
  | ok u =>
    cases u
    cases hP : env.pteOk
    · exact h2.trans h1
    · exact h2.trans h1

theorem setGgufKwargs_frame (b : BuilderArgs) (is_et : Bool) :
    FrameAgree b (setGgufKwargs b is_et).1 := by
  unfold setGgufKwargs
  split
  · rfl
  · split <;> rfl

theorem ggufPreamble_frame (b : BuilderArgs) :
    FrameAgree b (ggufPreamble b).1 := by
  unfold ggufPreamble
  split
  · split
    · rfl
    · split
      · rfl
      · exact setGgufKwargs_frame b b.pte_path.isSome
  · rfl

/-- C2, counterexample: the claim says construction fails unless
*exactly one* of the six source fields resolves to an existing
filesystem entity.  Here both the checkpoint file and the GGUF file
exist (two of the six), yet construction succeeds: the code only
requires *at least one* existing source. -/
theorem claim_C2_counterexample :
    optIsFile fsC2 bC2.checkpoint_path = true
      ∧ optIsFile fsC2 bC2.gguf_path = true
      ∧ exOk (postInit fsC2 false bC2) = true := by
  decide

/-- C2, amended: construction fails with the no-valid-source
ConfigurationError whenever none of the six source fields resolves to
an existing filesystem entity, for every combination of the other
fields (the code requires at least one existing source, not exactly
one). -/
theorem claim_C2 (fs : String → FileKind) (cuda : Bool) (b : BuilderArgs)
    (h : hasValidSource fs b = false) :
    postInit fs cuda b = Except.error Err.noValidSource := by
  unfold postInit postInitChecked
  rw [hasValidSource_deviceDefaulted, h]
  rfl

/-- C2, witness: a concrete configuration with no existing source is
rejected. -/
theorem claim_C2_witness :
    hasValidSource fsEmpty bC2w = false
      ∧ postInit fsEmpty false bC2w = Except.error Err.noValidSource :=
  ⟨by decide, claim_C2 fsEmpty false bC2w (by decide)⟩

/-- C3: whenever both a compiled-package path and a PTE path are set
(truthy), construction always fails, whatever the other fields: either
with the no-valid-source error or with the conflicting-exports error. -/
theorem claim_C3 (fs : String → FileKind) (cuda : Bool) (b : BuilderArgs)
    (h1 : truthy b.aoti_package_path = true) (h2 : truthy b.pte_path = true) :
    postInit fs cuda b = Except.error Err.noValidSource
      ∨ postInit fs cuda b = Except.error Err.conflictingExports := by
  cases hs : hasValidSource fs (deviceDefaulted cuda b) with
  | false =>
    left
    unfold postInit postInitChecked
    rw [hs]
    rfl
  | true =>
    right
    unfold postInit postInitChecked
    rw [hs, deviceDefaulted_aoti, deviceDefaulted_pte, h1, h2]
    rfl

/-- C3, witness: a concrete configuration with both artifact paths set
is rejected. -/
theorem claim_C3_witness :
    truthy bC3.aoti_package_path = true ∧ truthy bC3.pte_path = true
      ∧ (postInit fsEmpty false bC3 = Except.error Err.noValidSource
          ∨ postInit fsEmpty false bC3 = Except.error Err.conflictingExports) :=
  ⟨by decide, by decide, claim_C3 fsEmpty false bC3 (by decide) (by decide)⟩

/-- C8: when the `prefill_possible` field is left at its dataclass
default (False) — as every constructor call in the module does — a
successfully constructed configuration has it true exactly when none of
the DSO, compiled-package, and PTE sources is set. -/
theorem claim_C8 (fs : String → FileKind) (cuda : Bool) (b b2 : BuilderArgs)
    (hdefault : b.prefill_possible = false)
    (hok : postInit fs cuda b = Except.ok b2) :
    b2.prefill_possible
      = !(truthy b2.dso_path || truthy b2.pte_path || truthy b2.aoti_package_path) := by
  unfold postInit postInitChecked at hok
  split at hok
  · simp at hok
  · split at hok
    · simp at hok
    · split at hok
      · rename_i hart
        injection hok with h
        subst h
        simp only [deviceDefaulted_dso, deviceDefaulted_pte, deviceDefaulted_aoti] at hart
        simp [deviceDefaulted_prefill, deviceDefaulted_dso, deviceDefaulted_pte,
          deviceDefaulted_aoti, hart, hdefault]
      · rename_i helse
        injection hok with h
        subst h
        simp only [Bool.not_eq_true, deviceDefaulted_dso, deviceDefaulted_pte,
          deviceDefaulted_aoti] at helse
        simp [deviceDefaulted_dso, deviceDefaulted_pte, deviceDefaulted_aoti, helse]

/-- C8, witness: a checkpoint-only configuration comes out with
`prefill_possible = true`. -/
theorem claim_C8_witness :
    bC8.prefill_possible = false
      ∧ prefillOfResult (postInit fsC8 false bC8) = some true := by
  have hok : postInit fsC8 false bC8 = Except.ok bC8out := by rfl
  have h := claim_C8 fsC8 false bC8 bC8out rfl hok
  refine ⟨rfl, ?_⟩
  rw [hok]
  simp only [prefillOfResult, h]
  decide

/-! ## Claims about the checkpoint merger and loader -/

theorem lookupCP_map (f : String → Tensor) (keys : List String) (key : String)
    (hk : key ∈ keys) :
    lookupCP (keys.map fun k => (k, f k)) key = some (f key) := by
  induction keys with
  | nil => cases hk
  | cons a tl ih =>
    rw [List.map_cons]
    show (if a = key then some (f a) else lookupCP (tl.map fun k => (k, f k)) key)
      = some (f key)
    by_cases h : a = key
    · subst h
      simp
    · rw [if_neg h]
      rcases List.mem_cons.mp hk with h1 | h1
      · exact absurd h1.symm h
      · exact ih h1

/-- C1: for every key of shard 0, the merged output is exactly shard 0's
tensor when shards 0 and 1 compare equal under the tolerance comparison
(independently of shards 2 and 3), and otherwise the concatenation of
all four shards, along dimension 1 for keys ending in the two
column-parallel suffixes (wo.weight, w2.weight) and along dimension 0
for every other key. -/
theorem claim_C1 (ac : Tensor → Tensor → Bool) (cps cps2 : Fin 4 → String → Tensor)
    (keys0 : List String) (key : String) (hk : key ∈ keys0) :
    (lookupCP (mergeShards ac cps keys0) key
        = some (if ac (cps 0 key) (cps 1 key) then cps 0 key
            else if strEndsWith key "wo.weight" || strEndsWith key "w2.weight" then
              catDim1 (cps 0 key) (cps 1 key) (cps 2 key) (cps 3 key)
            else catDim0 (cps 0 key) (cps 1 key) (cps 2 key) (cps 3 key)))
      ∧ (ac (cps 0 key) (cps 1 key) = true → cps2 0 key = cps 0 key
          → cps2 1 key = cps 1 key
          → lookupCP (mergeShards ac cps2 keys0) key = some (cps 0 key)) := by
  have hmain : ∀ dps : Fin 4 → String → Tensor,
      lookupCP (mergeShards ac dps keys0) key
        = some (if !(ac (dps 0 key) (dps 1 key)) then
              (if strEndsWith key "wo.weight" || strEndsWith key "w2.weight" then
                catDim1 (dps 0 key) (dps 1 key) (dps 2 key) (dps 3 key)
              else catDim0 (dps 0 key) (dps 1 key) (dps 2 key) (dps 3 key))
            else dps 0 key) := by
    intro dps
    unfold mergeShards
    exact lookupCP_map _ keys0 key hk
  constructor
  · rw [hmain cps]
    cases hac : ac (cps 0 key) (cps 1 key) <;> simp [hac]
  · intro hac h0 h1
    rw [hmain cps2, h0, h1, hac]
    simp

/-- C1, witness: on four synthetic shards, the replicated key keeps
shard 0's tensor and the w2 key is concatenated along dimension 1. -/
theorem claim_C1_witness :
    lookupCP (mergeShards acW1 cpsW1 keysW1) "tok_embeddings.weight"
        = some (cpsW1 0 "tok_embeddings.weight")
      ∧ lookupCP (mergeShards acW1 cpsW1 keysW1) "layers.0.feed_forward.w2.weight"
        = some [[0, 1, 2, 3]] := by
  constructor
  · have h := (claim_C1 acW1 cpsW1 cpsW1 keysW1 "tok_embeddings.weight" (by decide)).1
    rw [h]
    rfl
  · have h := (claim_C1 acW1 cpsW1 cpsW1 keysW1 "layers.0.feed_forward.w2.weight"
      (by decide)).1
    rw [h]
    rfl

/-- C10: whenever the params-table key ends in "Tune", checkpoint
loading reads the single checkpoint file and applies the meta-to-tune
conversion, leaves the args untouched, and never performs the 4-shard
directory merge — even when a checkpoint directory is also set. -/
theorem claim_C10 (env : LoadEnv) (b : BuilderArgs)
    (h : paramsTableEndsTune b = true) :
    loadCheckpoint env b
      = (b, env.metaToTune (torchLoadDict env (strOfOpt b.checkpoint_path))) := by
  unfold loadCheckpoint
  rw [h]
  rfl

/-- C10, witness: a Tune configuration with a checkpoint directory also
set still takes the single-file Tune branch and mutates nothing. -/
theorem claim_C10_witness :
    paramsTableEndsTune bW10 = true ∧ bW10.checkpoint_dir = some "ckpts"
      ∧ loadCheckpoint lenvTrivial bW10
        = (bW10,
           lenvTrivial.metaToTune
             (torchLoadDict lenvTrivial (strOfOpt bW10.checkpoint_path))) :=
  ⟨by decide, by decide, claim_C10 lenvTrivial bW10 (by decide)⟩

/-! ## Claims about mutation of the configuration -/

theorem initializeModel_ok_dispatch (env : InitEnv) (b B : BuilderArgs)
    (h : ggufPreamble b = (B, Except.ok ())) :
    initializeModel env b
      = (if truthy B.dso_path then dsoBranch env B
        else if truthy B.aoti_package_path then aotiBranch env B
        else if truthy B.pte_path then pteBranch env B
        else loadModel env B) := by
  unfold initializeModel
  rw [h]

theorem initializeModel_err_dispatch (env : InitEnv) (b B : BuilderArgs) (e : Err)
    (h : ggufPreamble b = (B, Except.error e)) :
    initializeModel env b = (B, Except.error e) := by
  unfold initializeModel
  rw [h]

theorem initBranches_kwargs (env : InitEnv) (b1 : BuilderArgs) :
    (if truthy b1.dso_path then dsoBranch env b1
      else if truthy b1.aoti_package_path then aotiBranch env b1
      else if truthy b1.pte_path then pteBranch env b1
      else loadModel env b1).1.gguf_kwargs = b1.gguf_kwargs := by
  split
  · exact dsoBranch_kwargs env b1
  · split
    · exact aotiBranch_kwargs env b1
    · split
      · exact pteBranch_kwargs env b1
      · exact loadModel_kwargs env b1

/-- C4, counterexample: the claim says checkpoint loading keeps every
field, in particular the checkpoint-path, at its constructed value.
But `_load_checkpoint` on a configuration with a checkpoint directory
clears `checkpoint_path` to None. -/
theorem claim_C4_counterexample :
    bC4.checkpoint_path = some "consolidated.pth"
      ∧ (loadCheckpoint lenvTrivial bC4).1.checkpoint_path = none := by
  decide

/-- C4, amended: checkpoint loading and model initialization mutate
only the checkpoint-path (cleared when a checkpoint directory is
merged), the device (CPU downgrade or package-metadata override), and
the GGUF auxiliary-flags field; every other field keeps its constructed
value. -/
theorem claim_C4 (env : InitEnv) (b : BuilderArgs) :
    FrameAgree b (loadCheckpoint env.lenv b).1
      ∧ FrameAgree b (initializeModel env b).1 := by
  refine ⟨loadCheckpoint_frame env.lenv b, ?_⟩
  have hpre := ggufPreamble_frame b
  rcases hGP : ggufPreamble b with ⟨b1, r⟩
  rw [hGP] at hpre
  cases r with
  | error e =>
    rw [initializeModel_err_dispatch env b b1 e hGP]
    exact hpre
  | ok u =>
    cases u
    rw [initializeModel_ok_dispatch env b b1 hGP]
    split
    · exact frameAgree_trans hpre (dsoBranch_frame env b1)
    · split
      · exact frameAgree_trans hpre (aotiBranch_frame env b1)
      · split
        · exact frameAgree_trans hpre (pteBranch_frame env b1)
        · exact frameAgree_trans hpre (loadModel_frame env b1)

/-- C4, witness: the frame property at a concrete configuration. -/
theorem claim_C4_witness :
    FrameAgree bC4 (loadCheckpoint envC5.lenv bC4).1
      ∧ FrameAgree bC4 (initializeModel envC5 bC4).1 :=
  claim_C4 envC5 bC4

theorem truthy_isNone_false {o : Option String} (h : truthy o = true) :
    o.isNone = false := by
  cases o
  · simp [truthy] at h
  · rfl

theorem ggufPreamble_sets (b : BuilderArgs)
    (hcond : (truthy b.gguf_path
      && (truthy b.dso_path || truthy b.pte_path || truthy b.aoti_package_path)) = true)
    (hnone : b.gguf_kwargs = none)
    (hnot3 : (b.dso_path.isSome && b.aoti_package_path.isSome && b.pte_path.isSome)
      = false) :
    ggufPreamble b
      = ({ b with gguf_kwargs := some (ggufKwValue b.pte_path.isSome) },
         Except.ok ()) := by
  have hg : truthy b.gguf_path = true := by
    have h2 := hcond
    simp only [Bool.and_eq_true] at h2
    exact h2.1
  have hgn : b.gguf_path.isNone = false := truthy_isNone_false hg
  unfold ggufPreamble setGgufKwargs
  rw [hcond, hnot3, hnone]
  simp [hgn]

/-- C5, counterexample: the claim says the GGUF auxiliary flags are
cleared back to empty immediately after the load call returns.  In a
successful GGUF+DSO initialization the flags are still set after
`_initialize_model` returns: `_unset_gguf_kwargs` is never invoked. -/
theorem claim_C5_counterexample :
    exOk (initializeModel envC5 bC5).2 = true
      ∧ (initializeModel envC5 bC5).1.gguf_kwargs = some [] := by
  decide

/-- C5, amended: for a GGUF-backed load combined with a compiled
artifact, the flags field is asserted empty (a non-empty field aborts
with an assertion error before anything is mutated) and is set before
the load dispatch; it is NOT cleared afterwards — on every outcome of
the branch dispatch the final configuration still carries the flags. -/
theorem claim_C5 (env : InitEnv) (b : BuilderArgs)
    (hcond : (truthy b.gguf_path
      && (truthy b.dso_path || truthy b.pte_path || truthy b.aoti_package_path)) = true) :
    (b.gguf_kwargs = none
        → (b.dso_path.isSome && b.aoti_package_path.isSome && b.pte_path.isSome) = false
        → ((initializeModel env b).1.gguf_kwargs).isSome = true)
      ∧ (b.gguf_kwargs.isSome = true
          → initializeModel env b = (b, Except.error Err.assertionError)) := by
  constructor
  · intro hnone hnot3
    have hset := ggufPreamble_sets b hcond hnone hnot3
    rw [initializeModel_ok_dispatch env b _ hset, initBranches_kwargs]
    rfl
  · intro hsome
    have herr : ggufPreamble b = (b, Except.error Err.assertionError) := by
      unfold ggufPreamble
      rw [hcond]
      by_cases h3 : (b.dso_path.isSome && b.aoti_package_path.isSome
          && b.pte_path.isSome) = true
      · simp [h3]
      · simp [h3, hsome]
    exact initializeModel_err_dispatch env b b Err.assertionError herr

/-- C5, witness: a concrete GGUF+PTE configuration ends the (successful)
initialization with the flags still set. -/
theorem claim_C5_witness :
    ((initializeModel envC5 bC5w).1.gguf_kwargs).isSome = true :=
  (claim_C5 envC5 bC5w (by decide)).1 (by decide) (by decide)

/-! ## Claims about the tokenizer resolver and validator -/

/-- C6: the three tokenizer constructors are tried in fixed priority
order with isolated failures; the first success determines the handle
and exactly one true tag (a path loadable by sentencepiece but not
tiktoken yields tags tiktoken=false, sentencepiece=true, hf=false); if
all three fail, all tags are false and no handle is stored.  The
resolver is a total function — it never raises. -/
theorem claim_C6 (env : TokEnv) (a : TokenizerArgs) :
    (∀ h, env.tiktokenCtor (strOfOpt a.tokenizer_path) = some h →
        (tokPostInit env a).is_tiktoken = true
          ∧ (tokPostInit env a).is_sentencepiece = false
          ∧ (tokPostInit env a).is_hf_tokenizer = false
          ∧ (tokPostInit env a).t = some (TokHandle.tiktoken h))
      ∧ (env.tiktokenCtor (strOfOpt a.tokenizer_path) = none →
          ∀ h, env.sentencepieceCtor (strOfOpt a.tokenizer_path) = some h →
            (tokPostInit env a).is_tiktoken = false
              ∧ (tokPostInit env a).is_sentencepiece = true
              ∧ (tokPostInit env a).is_hf_tokenizer = false
              ∧ (tokPostInit env a).t = some (TokHandle.sentencepiece h))
      ∧ (env.tiktokenCtor (strOfOpt a.tokenizer_path) = none →
          env.sentencepieceCtor (strOfOpt a.tokenizer_path) = none →
          ∀ h, env.hfCtor (strOfOpt a.tokenizer_path) = some h →
            (tokPostInit env a).is_tiktoken = false
              ∧ (tokPostInit env a).is_sentencepiece = false
              ∧ (tokPostInit env a).is_hf_tokenizer = true
              ∧ (tokPostInit env a).t = some (TokHandle.hf h))
      ∧ (env.tiktokenCtor (strOfOpt a.tokenizer_path) = none →
          env.sentencepieceCtor (strOfOpt a.tokenizer_path) = none →
          env.hfCtor (strOfOpt a.tokenizer_path) = none →
            (tokPostInit env a).is_tiktoken = false
              ∧ (tokPostInit env a).is_sentencepiece = false
              ∧ (tokPostInit env a).is_hf_tokenizer = false
              ∧ (tokPostInit env a).t = none) := by
  refine ⟨?_, ?_, ?_, ?_⟩
  · intro h h1
    unfold tokPostInit
    rw [h1]
    exact ⟨rfl, rfl, rfl, rfl⟩
  · intro h1 h h2
    unfold tokPostInit
    rw [h1, h2]
    exact ⟨rfl, rfl, rfl, rfl⟩
  · intro h1 h2 h h3
    unfold tokPostInit
    rw [h1, h2, h3]
    exact ⟨rfl, rfl, rfl, rfl⟩
  · intro h1 h2 h3
    unfold tokPostInit
    rw [h1, h2, h3]
    exact ⟨rfl, rfl, rfl, rfl⟩

/-- C6, witness: a path loadable by sentencepiece but not tiktoken
resolves with exactly the sentencepiece tag true and the handle kept. -/
theorem claim_C6_witness :
    (tokPostInit envTokW aTokW).is_tiktoken = false
      ∧ (tokPostInit envTokW aTokW).is_sentencepiece = true
      ∧ (tokPostInit envTokW aTokW).is_hf_tokenizer = false
      ∧ (tokPostInit envTokW aTokW).t = some (TokHandle.sentencepiece 7) :=
  (claim_C6 envTokW aTokW).2.1 rfl 7 rfl

/-- C7: the compatibility check always passes without a model; with a
model it fails exactly when the number of true format tags differs from
one, or when the single true tag disagrees with the model's declared
format, sentencepiece being the implicit expectation when the model
declares neither tiktoken nor hf-style. -/
theorem claim_C7 (a : TokenizerArgs) :
    validateModel a none = Except.ok ()
      ∧ ∀ m : ModelCfg,
          (exOk (validateModel a (some m)) = false
            ↔ boolSum [a.is_tiktoken, a.is_hf_tokenizer, a.is_sentencepiece] ≠ 1
              ∨ (boolSum [a.is_tiktoken, a.is_hf_tokenizer, a.is_sentencepiece] = 1
                 ∧ ((a.is_tiktoken = true ∧ m.use_tiktoken = false)
                    ∨ (a.is_hf_tokenizer = true ∧ m.use_hf_tokenizer = false)
                    ∨ (a.is_sentencepiece = true
                        ∧ (m.use_tiktoken || m.use_hf_tokenizer) = true)))) := by
  constructor
  · rfl
  · intro m
    rcases a with ⟨p, sp, tk, hf, t⟩
    rcases m with ⟨ut, uh⟩
    cases sp <;> cases tk <;> cases hf <;> cases ut <;> cases uh <;>
      simp [validateModel, boolSum, exOk]

/-- C7, witness: a tiktoken-tagged tokenizer against a model expecting
sentencepiece is rejected. -/
theorem claim_C7_witness :
    exOk (validateModel aTokC7 (some mC7)) = false :=
  ((claim_C7 aTokC7).2 mC7).mpr (by decide)

/-! ## Claims about argument resolution -/

theorem postInit_chat (fs : String → FileKind) (cuda : Bool) (b b2 : BuilderArgs)
    (hok : postInit fs cuda b = Except.ok b2) :
    b2.is_chat_model = b.is_chat_model := by
  have hdd : (deviceDefaulted cuda b).is_chat_model = b.is_chat_model := by
    unfold deviceDefaulted
    split <;> rfl
  unfold postInit postInitChecked at hok
  split at hok
  · simp at hok
  · split at hok
    · simp at hok
    · split at hok
      · injection hok with h
        subst h
        exact hdd
      · injection hok with h
        subst h
        exact hdd

/-- C9, counterexample: the claim says the flag is set exactly when the
basename of a present source path contains "chat" or "instruct".  Here
the checkpoint file is literally named "chat.pth" (its basename contains
"chat"), it exists, the explicit flag is not passed — yet the resolved
flag is false, because for an existing file the code inspects the
basename of the file's parent directory ("m"), not the file's own
basename. -/
theorem claim_C9_counterexample :
    argsC9.is_chat_model = false
      ∧ strContains (lowerStr (pyBasename "m/chat.pth")) "chat" = true
      ∧ chatFlagOfResult (fromArgs envC9 argsC9) = some false := by
  decide

/-- C9, amended: the explicit flag wins; otherwise the flag is true
exactly when at least one present source path — after stripping one
trailing slash and, when the path is an existing file, replacing it by
its parent directory — has a basename containing "chat" or "instruct"
case-insensitively. -/
theorem claim_C9 (env : ResolveEnv) (args : Args) (b2 : BuilderArgs)
    (hok : fromArgs env args = Except.ok b2) :
    b2.is_chat_model
      = (args.is_chat_model
          || (chatCandidates env args).any (chatOptIndicates env.fs)) := by
  unfold fromArgs at hok
  exact postInit_chat env.fs env.cudaAvailable _ b2 hok

/-- C9, witness: a named well-known model resolving to an existing
checkpoint file inside a directory whose name contains "instruct" comes
out with the chat flag true although the explicit flag was not passed. -/
theorem claim_C9_witness :
    chatFlagOfResult (fromArgs envW9 argsW9) = some true := by
  have hOk : exOk (fromArgs envW9 argsW9) = true := by decide
  have hChat : (argsW9.is_chat_model
      || (chatCandidates envW9 argsW9).any (chatOptIndicates envW9.fs)) = true := by
    decide
  cases h : fromArgs envW9 argsW9 with
  | error e =>
    rw [h] at hOk
    simp [exOk] at hOk
  | ok b2 =>
    have h9 := claim_C9 envW9 argsW9 b2 h
    simp only [chatFlagOfResult]
    rw [h9, hChat]

end TorchchatBuilder
